import Mathlib

/-!
Shallow embedding of `AWS-Security-report-script.py`, a sequential
fetch-aggregate-merge pipeline that produces a per-instance security report:
EC2 enumeration (id + Name tag), AWS Backup coverage, CloudWatch alarm
attribution/classification, Inspector CVE tallies, and final row assembly.
External API responses are modelled as explicit inputs; the script's
aggregation logic is translated function-by-function from the source.
-/

namespace AWSReport

/-- An EC2 tag: `{"Key": ..., "Value": ...}`. -/
structure Tag where
  key : String
  value : String
deriving DecidableEq

/-- One instance record as yielded by `describe_instances` pages
(flattened over pages and reservations, in iteration order). -/
structure EC2Instance where
  instanceId : String
  tags : List Tag
deriving DecidableEq

/-- One entry of `backup.list_protected_resources`. -/
structure ProtectedResource where
  resourceType : String
  resourceArn : String
deriving DecidableEq

/-- One CloudWatch alarm dimension `{"Name": ..., "Value": ...}`. -/
structure Dimension where
  name : String
  value : String
deriving DecidableEq

/-- One metric alarm from `cloudwatch.describe_alarms`; the state-update
timestamp is modelled as an integer (seconds). -/
structure MetricAlarm where
  alarmName : String
  dimensions : List Dimension
  stateValue : String
  stateUpdatedTimestamp : Int
deriving DecidableEq

/-- The per-instance CVE tally accumulated by the Inspector loop
(`cve_data[instance_id]`), fields `Critical`, `High`, `All`. -/
structure CveCounts where
  critical : Nat
  high : Nat
  all : Nat
deriving DecidableEq

/-- One row of the final report (lines 129-143 of the script). All fields
are total: the row type has no optional/null field. -/
structure Row where
  accountId : String
  instanceId : String
  instanceName : String
  backupEnabled : String
  monitoringEnabled : String
  stateAlarm : String
  cpuAlarm : String
  memoryAlarm : String
  diskAlarm : String
  monitoringAlertLastWeek : String
  cveCritical : Nat
  cveHigh : Nat
  cveAll : Nat
deriving DecidableEq

/-- Name resolution (lines 33-37): scan the tag list for the first tag whose
key is exactly `"Name"` (the loop breaks at the first match); default `"N/A"`. -/
def resolveName (tags : List Tag) : String :=
  match tags.find? (fun t => t.key == "Name") with
  | some t => t.value
  | none => "N/A"

/-- `instances[instance_id] = {...}` with Python-dict semantics: an existing
key keeps its position and gets the new value; a new key is appended. -/
def insertInstance (m : List (String × String)) (iid nm : String) :
    List (String × String) :=
  if m.any (fun p => p.1 == iid) then
    m.map (fun p => if p.1 == iid then (p.1, nm) else p)
  else
    m ++ [(iid, nm)]

/-- The `instances` dict (lines 25-42) as an insertion-ordered association
list from instance id to resolved name. -/
def buildInstances (l : List EC2Instance) : List (String × String) :=
  l.foldl (fun m i => insertInstance m i.instanceId (resolveName i.tags)) []

/-- Python `s.split("/")[-1]`: the segment after the last `'/'`, or the whole
string if no `'/'` occurs. -/
def lastSegment (s : String) : String :=
  String.mk (s.data.foldl (fun acc c => if c == '/' then [] else acc ++ [c]) [])

/-- The `protected_instances` set (lines 52-59): ids extracted from entries
whose `ResourceType` is `"EC2"`, as a list whose membership is the set. -/
def protectedInstances (rs : List ProtectedResource) : List String :=
  (rs.filter (fun r => r.resourceType == "EC2")).map
    (fun r => lastSegment r.resourceArn)

/-- The dimension scan of lines 70-74: `instance_id` starts as `None` and is
overwritten by every dimension named `"InstanceId"` (no break), so the last
such dimension wins. -/
def extractInstanceId (dims : List Dimension) : Option String :=
  dims.foldl (fun acc d => if d.name == "InstanceId" then some d.value else acc)
    none

/-- Lines 70-77 combined: the extracted id, with the Python-falsy guard
`if not instance_id: continue`, which also skips the empty string. -/
def alarmInstanceId (a : MetricAlarm) : Option String :=
  match extractInstanceId a.dimensions with
  | some s => if s == "" then none else some s
  | none => none

/-- Python `str.lower()` restricted to the ASCII behaviour used here. -/
def lowerStr (s : String) : String :=
  String.mk (s.data.map Char.toLower)

/-- `alarm_map[instance_id]` (lines 64, 79-80): the lowercased names of the
alarms attributed to `iid`, in alarm iteration order. -/
def alarmMap (alarms : List MetricAlarm) (iid : String) : List String :=
  (alarms.filter (fun a => alarmInstanceId a == some iid)).map
    (fun a => lowerStr a.alarmName)

/-- `alarm_triggered_last_week[instance_id]` (lines 65, 82-86): true iff some
attributed alarm has state `"ALARM"` and `StateUpdatedTimestamp >= LAST_7_DAYS`. -/
def alarmTriggeredLastWeek (alarms : List MetricAlarm) (last7 : Int)
    (iid : String) : Bool :=
  alarms.any (fun a =>
    alarmInstanceId a == some iid && a.stateValue == "ALARM"
      && decide (last7 ≤ a.stateUpdatedTimestamp))

/-- Matching of a nonempty pattern at the head of a list. -/
def listStarts : List Char → List Char → Bool
  | [], _ => true
  | _ :: _, [] => false
  | a :: as, b :: bs => a == b && listStarts as bs

/-- Contiguous-substring test on character lists. -/
def substrIn (needle : List Char) : List Char → Bool
  | [] => listStarts needle []
  | b :: bs => listStarts needle (b :: bs) || substrIn needle bs

/-- Python's `needle in hay` on strings. -/
def pyIn (needle hay : String) : Bool :=
  substrIn needle.data hay.data

/-- One Inspector finding step (lines 111-119): `All` always increments;
`Critical` on `"CRITICAL"`; `High` on the `elif "HIGH"` branch. -/
def cveStep (c : CveCounts) (sev : String) : CveCounts :=
  { critical := if sev == "CRITICAL" then c.critical + 1 else c.critical
    high := if sev == "CRITICAL" then c.high
      else if sev == "HIGH" then c.high + 1 else c.high
    all := c.all + 1 }

/-- `cve_data[instance_id]` built from the severities of that instance's
active package-vulnerability findings; the `defaultdict` default is all-zero. -/
def cveData (sevs : List String) : CveCounts :=
  sevs.foldl cveStep ⟨0, 0, 0⟩

/-- The script's `"Yes" if b else "No"` serialization of booleans. -/
def yesNo (b : Bool) : String :=
  if b then "Yes" else "No"

/-- One report row (lines 126-145) for the instance entry `p = (id, name)`.
`findings` maps an instance id to the severities returned by the Inspector
query filtered to that id (active package vulnerabilities). -/
def buildRow (acct : String) (prot : List String) (alarms : List MetricAlarm)
    (last7 : Int) (findings : String → List String) (p : String × String) :
    Row :=
  let iid := p.1
  let names := alarmMap alarms iid
  let tally := cveData (findings iid)
  { accountId := acct
    instanceId := iid
    instanceName := p.2
    backupEnabled := yesNo (prot.contains iid)
    monitoringEnabled := yesNo (!names.isEmpty)
    stateAlarm := yesNo (names.any (fun a => pyIn "state" a || pyIn "status" a))
    cpuAlarm := yesNo (names.any (fun a => pyIn "cpu" a))
    memoryAlarm := yesNo (names.any (fun a => pyIn "memory" a))
    diskAlarm := yesNo (names.any (fun a => pyIn "disk" a || pyIn "filesystem" a))
    monitoringAlertLastWeek := yesNo (alarmTriggeredLastWeek alarms last7 iid)
    cveCritical := tally.critical
    cveHigh := tally.high
    cveAll := tally.all }

/-- The `rows` list (lines 124-145): one row per `instances` entry, in
insertion order. -/
def buildRows (acct : String) (m : List (String × String)) (prot : List String)
    (alarms : List MetricAlarm) (last7 : Int)
    (findings : String → List String) : List Row :=
  m.map (buildRow acct prot alarms last7 findings)

/-- The five provider responses consumed by one run, plus the account id. -/
structure ApiEnv where
  accountId : String
  ec2Instances : List EC2Instance
  backupResources : List ProtectedResource
  metricAlarms : List MetricAlarm
  findingsFor : String → List String

/-- Seconds per day, for `timedelta(days=7)` on integer-second timestamps. -/
def secondsPerDay : Int := 86400

/-- The whole run: enumeration, the fatal zero-instance guard (lines 46-47),
then the remaining stages and row assembly. `LAST_7_DAYS = now - 7 days`
(line 10). An `Except.error` run produces no rows and writes no file. -/
def runReport (now : Int) (env : ApiEnv) : Except String (List Row) :=
  let m := buildInstances env.ec2Instances
  if m.isEmpty then
    Except.error "No EC2 instances found. Check region or AWS profile."
  else
    Except.ok (buildRows env.accountId m (protectedInstances env.backupResources)
      env.metricAlarms (now - 7 * secondsPerDay) env.findingsFor)

/-! ### Generic lemmas about the embedded operations -/

theorem yesNo_eq_yes {b : Bool} : yesNo b = "Yes" ↔ b = true := by
  cases b
  · exact ⟨fun h => absurd h (by decide), fun h => by cases h⟩
  · exact ⟨fun _ => rfl, fun _ => rfl⟩

theorem yesNo_eq_no {b : Bool} : yesNo b = "No" ↔ b = false := by
  cases b
  · exact ⟨fun _ => rfl, fun _ => rfl⟩
  · exact ⟨fun h => absurd h (by decide), fun h => by cases h⟩

theorem mem_alarmMap {alarms : List MetricAlarm} {iid nm : String} :
    nm ∈ alarmMap alarms iid ↔
      ∃ a ∈ alarms, alarmInstanceId a = some iid ∧ nm = lowerStr a.alarmName := by
  simp only [alarmMap, List.mem_map, List.mem_filter, beq_iff_eq]
  constructor
  · rintro ⟨a, ⟨ha, hid⟩, h⟩
    exact ⟨a, ha, hid, h.symm⟩
  · rintro ⟨a, ha, hid, h⟩
    exact ⟨a, ⟨ha, hid⟩, h.symm⟩

theorem alarmMap_any_iff {alarms : List MetricAlarm} {iid : String}
    (pred : String → Bool) :
    (alarmMap alarms iid).any pred = true ↔
      ∃ a ∈ alarms, alarmInstanceId a = some iid
        ∧ pred (lowerStr a.alarmName) = true := by
  rw [List.any_eq_true]
  constructor
  · rintro ⟨nm, hnm, hp⟩
    obtain ⟨a, ha, hid, he⟩ := mem_alarmMap.mp hnm
    exact ⟨a, ha, hid, he ▸ hp⟩
  · rintro ⟨a, ha, hid, hp⟩
    exact ⟨lowerStr a.alarmName, mem_alarmMap.mpr ⟨a, ha, hid, rfl⟩, hp⟩

theorem alarmTriggeredLastWeek_iff {alarms : List MetricAlarm} {last7 : Int}
    {iid : String} :
    alarmTriggeredLastWeek alarms last7 iid = true ↔
      ∃ a ∈ alarms, alarmInstanceId a = some iid ∧ a.stateValue = "ALARM"
        ∧ last7 ≤ a.stateUpdatedTimestamp := by
  simp only [alarmTriggeredLastWeek, List.any_eq_true, Bool.and_eq_true,
    beq_iff_eq, decide_eq_true_eq]
  constructor
  · rintro ⟨a, ha, ⟨hid, hst⟩, hts⟩
    exact ⟨a, ha, hid, hst, hts⟩
  · rintro ⟨a, ha, hid, hst, hts⟩
    exact ⟨a, ha, ⟨hid, hst⟩, hts⟩

theorem mem_buildRows {acct : String} {m : List (String × String)}
    {prot : List String} {alarms : List MetricAlarm} {l7 : Int}
    {f : String → List String} {row : Row} :
    row ∈ buildRows acct m prot alarms l7 f ↔
      ∃ p ∈ m, buildRow acct prot alarms l7 f p = row := by
  simp [buildRows, List.mem_map]

theorem buildRow_instanceId {acct : String} {prot : List String}
    {alarms : List MetricAlarm} {l7 : Int} {f : String → List String}
    {p : String × String} :
    (buildRow acct prot alarms l7 f p).instanceId = p.1 := rfl

theorem buildRow_instanceName {acct : String} {prot : List String}
    {alarms : List MetricAlarm} {l7 : Int} {f : String → List String}
    {p : String × String} :
    (buildRow acct prot alarms l7 f p).instanceName = p.2 := rfl

theorem buildRow_backupEnabled {acct : String} {prot : List String}
    {alarms : List MetricAlarm} {l7 : Int} {f : String → List String}
    {p : String × String} :
    (buildRow acct prot alarms l7 f p).backupEnabled
      = yesNo (prot.contains p.1) := rfl

theorem buildRow_monitoringEnabled {acct : String} {prot : List String}
    {alarms : List MetricAlarm} {l7 : Int} {f : String → List String}
    {p : String × String} :
    (buildRow acct prot alarms l7 f p).monitoringEnabled
      = yesNo (!(alarmMap alarms p.1).isEmpty) := rfl

theorem buildRow_stateAlarm {acct : String} {prot : List String}
    {alarms : List MetricAlarm} {l7 : Int} {f : String → List String}
    {p : String × String} :
    (buildRow acct prot alarms l7 f p).stateAlarm
      = yesNo ((alarmMap alarms p.1).any
          (fun a => pyIn "state" a || pyIn "status" a)) := rfl

theorem buildRow_cpuAlarm {acct : String} {prot : List String}
    {alarms : List MetricAlarm} {l7 : Int} {f : String → List String}
    {p : String × String} :
    (buildRow acct prot alarms l7 f p).cpuAlarm
      = yesNo ((alarmMap alarms p.1).any (fun a => pyIn "cpu" a)) := rfl

theorem buildRow_memoryAlarm {acct : String} {prot : List String}
    {alarms : List MetricAlarm} {l7 : Int} {f : String → List String}
    {p : String × String} :
    (buildRow acct prot alarms l7 f p).memoryAlarm
      = yesNo ((alarmMap alarms p.1).any (fun a => pyIn "memory" a)) := rfl

theorem buildRow_diskAlarm {acct : String} {prot : List String}
    {alarms : List MetricAlarm} {l7 : Int} {f : String → List String}
    {p : String × String} :
    (buildRow acct prot alarms l7 f p).diskAlarm
      = yesNo ((alarmMap alarms p.1).any
          (fun a => pyIn "disk" a || pyIn "filesystem" a)) := rfl

theorem buildRow_alertLastWeek {acct : String} {prot : List String}
    {alarms : List MetricAlarm} {l7 : Int} {f : String → List String}
    {p : String × String} :
    (buildRow acct prot alarms l7 f p).monitoringAlertLastWeek
      = yesNo (alarmTriggeredLastWeek alarms l7 p.1) := rfl

theorem buildRow_cveCritical {acct : String} {prot : List String}
    {alarms : List MetricAlarm} {l7 : Int} {f : String → List String}
    {p : String × String} :
    (buildRow acct prot alarms l7 f p).cveCritical
      = (cveData (f p.1)).critical := rfl

theorem buildRow_cveHigh {acct : String} {prot : List String}
    {alarms : List MetricAlarm} {l7 : Int} {f : String → List String}
    {p : String × String} :
    (buildRow acct prot alarms l7 f p).cveHigh = (cveData (f p.1)).high := rfl

theorem buildRow_cveAll {acct : String} {prot : List String}
    {alarms : List MetricAlarm} {l7 : Int} {f : String → List String}
    {p : String × String} :
    (buildRow acct prot alarms l7 f p).cveAll = (cveData (f p.1)).all := rfl

/-! ### Concrete sample data used by witnesses -/

/-- The empty Inspector response: no findings for any instance. -/
def noFindings : String → List String := fun _ => []

/-- An alarm that fired 8 days before a run starting at time 0
(8 * 86400 = 691200 seconds). -/
def exAlarm8d : MetricAlarm :=
  ⟨"cpu-high", [⟨"InstanceId", "i-1"⟩], "ALARM", -691200⟩

/-- An alarm whose name mentions both memory and CPU. -/
def exAlarmCombo : MetricAlarm :=
  ⟨"MemoryHigh-CPU-combo", [⟨"InstanceId", "i-9"⟩], "OK", 0⟩

/-- An alarm whose name mentions disk. -/
def exAlarmDiskLow : MetricAlarm :=
  ⟨"DiskSpaceLow", [⟨"InstanceId", "i-9"⟩], "OK", 0⟩

/-- The report row for instance `i-9` with the two sample alarms above. -/
def exRowC2 : Row :=
  buildRow "123" [] [exAlarmCombo, exAlarmDiskLow] 0 noFindings ("i-9", "N/A")

/-- The report row for instance `i-1` with the 8-day-old firing alarm,
for a run starting at time 0. -/
def exRowC1 : Row :=
  buildRow "123" [] [exAlarm8d] (0 - 7 * secondsPerDay) noFindings ("i-1", "N/A")

/-! ### Claim theorems -/

/-- C1: for every report row, `MonitoringAlertLastWeek` is `"Yes"` iff at
least one alarm attributed to that instance via its `InstanceId` dimension
has current state `"ALARM"` and a state-transition timestamp at or after the
run-start time minus 7 days. -/
theorem monitoringAlertLastWeek_iff_fired_in_window (acct : String)
    (m : List (String × String)) (prot : List String)
    (alarms : List MetricAlarm) (now : Int) (f : String → List String)
    (row : Row)
    (hrow : row ∈ buildRows acct m prot alarms (now - 7 * secondsPerDay) f) :
    row.monitoringAlertLastWeek = "Yes" ↔
      ∃ a ∈ alarms, alarmInstanceId a = some row.instanceId
        ∧ a.stateValue = "ALARM"
        ∧ now - 7 * secondsPerDay ≤ a.stateUpdatedTimestamp := by
  obtain ⟨p, hp, rfl⟩ := mem_buildRows.mp hrow
  simp only [buildRow_instanceId, buildRow_alertLastWeek, yesNo_eq_yes,
    alarmTriggeredLastWeek_iff]

/-- C1 witness: the iff instantiated for an alarm that fired 8 days before a
run starting at time 0; the resulting column is `"No"`. -/
theorem monitoringAlertLastWeek_iff_fired_in_window_witness :
    (exRowC1.monitoringAlertLastWeek = "Yes" ↔
      ∃ a ∈ [exAlarm8d], alarmInstanceId a = some exRowC1.instanceId
        ∧ a.stateValue = "ALARM"
        ∧ 0 - 7 * secondsPerDay ≤ a.stateUpdatedTimestamp)
    ∧ exRowC1.monitoringAlertLastWeek = "No" :=
  ⟨monitoringAlertLastWeek_iff_fired_in_window "123" [("i-1", "N/A")] []
      [exAlarm8d] 0 noFindings exRowC1 (List.mem_singleton.mpr rfl),
    by decide⟩

/-- C2: for every report row, each category flag is `"Yes"` iff some alarm
attributed to that instance has a name whose lowercasing contains the
corresponding keyword as a substring: state/status, cpu, memory,
disk/filesystem. -/
theorem category_flags_iff_keyword_in_name (acct : String)
    (m : List (String × String)) (prot : List String)
    (alarms : List MetricAlarm) (l7 : Int) (f : String → List String)
    (row : Row) (hrow : row ∈ buildRows acct m prot alarms l7 f) :
    (row.stateAlarm = "Yes" ↔
      ∃ a ∈ alarms, alarmInstanceId a = some row.instanceId
        ∧ (pyIn "state" (lowerStr a.alarmName) = true
            ∨ pyIn "status" (lowerStr a.alarmName) = true))
    ∧ (row.cpuAlarm = "Yes" ↔
      ∃ a ∈ alarms, alarmInstanceId a = some row.instanceId
        ∧ pyIn "cpu" (lowerStr a.alarmName) = true)
    ∧ (row.memoryAlarm = "Yes" ↔
      ∃ a ∈ alarms, alarmInstanceId a = some row.instanceId
        ∧ pyIn "memory" (lowerStr a.alarmName) = true)
    ∧ (row.diskAlarm = "Yes" ↔
      ∃ a ∈ alarms, alarmInstanceId a = some row.instanceId
        ∧ (pyIn "disk" (lowerStr a.alarmName) = true
            ∨ pyIn "filesystem" (lowerStr a.alarmName) = true)) := by
  obtain ⟨p, hp, rfl⟩ := mem_buildRows.mp hrow
  refine ⟨?_, ?_, ?_, ?_⟩ <;>
    simp only [buildRow_instanceId, buildRow_stateAlarm, buildRow_cpuAlarm,
      buildRow_memoryAlarm, buildRow_diskAlarm, yesNo_eq_yes,
      alarmMap_any_iff, Bool.or_eq_true]

/-- C2 witness: with alarms `"MemoryHigh-CPU-combo"` and `"DiskSpaceLow"` on
one instance, the iff holds and the concrete flags are Memory/CPU/Disk =
`"Yes"`, State = `"No"`; the combo alarm sets two flags at once. -/
theorem category_flags_iff_keyword_in_name_witness :
    ((exRowC2.stateAlarm = "Yes" ↔
      ∃ a ∈ [exAlarmCombo, exAlarmDiskLow],
        alarmInstanceId a = some exRowC2.instanceId
        ∧ (pyIn "state" (lowerStr a.alarmName) = true
            ∨ pyIn "status" (lowerStr a.alarmName) = true))
    ∧ (exRowC2.cpuAlarm = "Yes" ↔
      ∃ a ∈ [exAlarmCombo, exAlarmDiskLow],
        alarmInstanceId a = some exRowC2.instanceId
        ∧ pyIn "cpu" (lowerStr a.alarmName) = true)
    ∧ (exRowC2.memoryAlarm = "Yes" ↔
      ∃ a ∈ [exAlarmCombo, exAlarmDiskLow],
        alarmInstanceId a = some exRowC2.instanceId
        ∧ pyIn "memory" (lowerStr a.alarmName) = true)
    ∧ (exRowC2.diskAlarm = "Yes" ↔
      ∃ a ∈ [exAlarmCombo, exAlarmDiskLow],
        alarmInstanceId a = some exRowC2.instanceId
        ∧ (pyIn "disk" (lowerStr a.alarmName) = true
            ∨ pyIn "filesystem" (lowerStr a.alarmName) = true)))
    ∧ exRowC2.memoryAlarm = "Yes" ∧ exRowC2.cpuAlarm = "Yes"
    ∧ exRowC2.diskAlarm = "Yes" ∧ exRowC2.stateAlarm = "No" :=
  ⟨category_flags_iff_keyword_in_name "123" [("i-9", "N/A")] []
      [exAlarmCombo, exAlarmDiskLow] 0 noFindings exRowC2
      (List.mem_singleton.mpr rfl),
    by decide, by decide, by decide, by decide⟩

theorem cveStep_all (c : CveCounts) (s : String) :
    (cveStep c s).all = c.all + 1 := rfl

theorem cveStep_critical (c : CveCounts) (s : String) :
    (cveStep c s).critical
      = if s = "CRITICAL" then c.critical + 1 else c.critical := by
  show (if s == "CRITICAL" then c.critical + 1 else c.critical) = _
  by_cases h : s = "CRITICAL"
  · rw [if_pos (beq_iff_eq.mpr h), if_pos h]
  · rw [if_neg (fun hc => h (beq_iff_eq.mp hc)), if_neg h]

theorem cveStep_high (c : CveCounts) (s : String) :
    (cveStep c s).high = if s = "HIGH" then c.high + 1 else c.high := by
  show (if s == "CRITICAL" then c.high
    else if s == "HIGH" then c.high + 1 else c.high) = _
  by_cases h : s = "CRITICAL"
  · have hne : s ≠ "HIGH" := by rw [h]; decide
    rw [if_pos (beq_iff_eq.mpr h), if_neg hne]
  · rw [if_neg (fun hc => h (beq_iff_eq.mp hc))]
    by_cases h2 : s = "HIGH"
    · rw [if_pos (beq_iff_eq.mpr h2), if_pos h2]
    · rw [if_neg (fun hc => h2 (beq_iff_eq.mp hc)), if_neg h2]

theorem cveFold_all (sevs : List String) : ∀ c : CveCounts,
    (sevs.foldl cveStep c).all = c.all + sevs.length := by
  induction sevs with
  | nil => intro c; simp
  | cons s rest ih =>
    intro c
    rw [List.foldl_cons, ih, cveStep_all, List.length_cons]
    omega

theorem cveFold_critical (sevs : List String) : ∀ c : CveCounts,
    (sevs.foldl cveStep c).critical
      = c.critical + sevs.countP (fun s => s == "CRITICAL") := by
  induction sevs with
  | nil => intro c; simp
  | cons s rest ih =>
    intro c
    rw [List.foldl_cons, ih, cveStep_critical, List.countP_cons]
    by_cases h : s = "CRITICAL"
    · simp [h]
      omega
    · simp [h]

theorem cveFold_high (sevs : List String) : ∀ c : CveCounts,
    (sevs.foldl cveStep c).high
      = c.high + sevs.countP (fun s => s == "HIGH") := by
  induction sevs with
  | nil => intro c; simp
  | cons s rest ih =>
    intro c
    rw [List.foldl_cons, ih, cveStep_high, List.countP_cons]
    by_cases h : s = "HIGH"
    · simp [h]
      omega
    · simp [h]

theorem countP_severity_split (sevs : List String) :
    sevs.length = sevs.countP (fun s => s == "CRITICAL")
      + sevs.countP (fun s => s == "HIGH")
      + sevs.countP (fun s => !(s == "CRITICAL") && !(s == "HIGH")) := by
  induction sevs with
  | nil => rfl
  | cons s rest ih =>
    rw [List.length_cons, List.countP_cons, List.countP_cons,
      List.countP_cons, ih]
    by_cases h : s = "CRITICAL"
    · simp [h]
      omega
    · by_cases h2 : s = "HIGH" <;> simp [h, h2] <;> omega

/-- The Inspector response from the end-to-end example: two critical, one
high, one medium finding. -/
def exFindings : String → List String :=
  fun _ => ["CRITICAL", "CRITICAL", "HIGH", "MEDIUM"]

/-- The report row for instance `i-1` with no backup, no alarms and the
sample findings. -/
def exRowC3 : Row := buildRow "123" [] [] 0 exFindings ("i-1", "N/A")

/-- C3: for every report row, `CVE_Critical` counts the `"CRITICAL"`
findings, `CVE_High` the `"HIGH"` ones, `CVE_All` all findings, so
`CVE_All = CVE_Critical + CVE_High + (findings of other severities)`;
with zero findings all three counts are zero. -/
theorem cve_tally_decomposition (acct : String) (m : List (String × String))
    (prot : List String) (alarms : List MetricAlarm) (l7 : Int)
    (f : String → List String) (row : Row)
    (hrow : row ∈ buildRows acct m prot alarms l7 f) :
    row.cveCritical = (f row.instanceId).countP (fun s => s == "CRITICAL")
    ∧ row.cveHigh = (f row.instanceId).countP (fun s => s == "HIGH")
    ∧ row.cveAll = (f row.instanceId).length
    ∧ row.cveAll = row.cveCritical + row.cveHigh
        + (f row.instanceId).countP
            (fun s => !(s == "CRITICAL") && !(s == "HIGH"))
    ∧ (f row.instanceId = [] →
        row.cveCritical = 0 ∧ row.cveHigh = 0 ∧ row.cveAll = 0) := by
  obtain ⟨p, hp, rfl⟩ := mem_buildRows.mp hrow
  simp only [buildRow_instanceId, buildRow_cveCritical, buildRow_cveHigh,
    buildRow_cveAll, cveData]
  have hc := cveFold_critical (f p.1) ⟨0, 0, 0⟩
  have hh := cveFold_high (f p.1) ⟨0, 0, 0⟩
  have ha := cveFold_all (f p.1) ⟨0, 0, 0⟩
  refine ⟨hc.trans (Nat.zero_add _), hh.trans (Nat.zero_add _),
    ha.trans (Nat.zero_add _), ?_, ?_⟩
  · rw [ha.trans (Nat.zero_add _), hc.trans (Nat.zero_add _),
      hh.trans (Nat.zero_add _)]
    exact countP_severity_split (f p.1)
  · intro h
    rw [h]
    exact ⟨rfl, rfl, rfl⟩

/-- C3 witness: for findings CRITICAL, CRITICAL, HIGH, MEDIUM, the
decomposition holds and the counts are 2 / 1 / 4. -/
theorem cve_tally_decomposition_witness :
    (exRowC3.cveCritical
        = (exFindings exRowC3.instanceId).countP (fun s => s == "CRITICAL")
    ∧ exRowC3.cveHigh
        = (exFindings exRowC3.instanceId).countP (fun s => s == "HIGH")
    ∧ exRowC3.cveAll = (exFindings exRowC3.instanceId).length
    ∧ exRowC3.cveAll = exRowC3.cveCritical + exRowC3.cveHigh
        + (exFindings exRowC3.instanceId).countP
            (fun s => !(s == "CRITICAL") && !(s == "HIGH"))
    ∧ (exFindings exRowC3.instanceId = [] →
        exRowC3.cveCritical = 0 ∧ exRowC3.cveHigh = 0 ∧ exRowC3.cveAll = 0))
    ∧ exRowC3.cveCritical = 2 ∧ exRowC3.cveHigh = 1 ∧ exRowC3.cveAll = 4 :=
  ⟨cve_tally_decomposition "123" [("i-1", "N/A")] [] [] 0 exFindings exRowC3
      (List.mem_singleton.mpr rfl),
    by decide, by decide, by decide⟩

theorem mem_protectedInstances {rs : List ProtectedResource} {iid : String} :
    iid ∈ protectedInstances rs ↔
      ∃ r ∈ rs, r.resourceType = "EC2" ∧ lastSegment r.resourceArn = iid := by
  simp only [protectedInstances, List.mem_map, List.mem_filter, beq_iff_eq]
  constructor
  · rintro ⟨r, ⟨hr, ht⟩, he⟩
    exact ⟨r, hr, ht, he⟩
  · rintro ⟨r, hr, ht, he⟩
    exact ⟨r, ⟨hr, ht⟩, he⟩

theorem lastSeg_foldl_no_slash :
    ∀ (v acc : List Char), '/' ∉ v →
      v.foldl (fun acc c => if c == '/' then [] else acc ++ [c]) acc
        = acc ++ v := by
  intro v
  induction v with
  | nil => intro acc _; simp
  | cons c cs ih =>
    intro acc h
    have hc : c ≠ '/' := fun he => h (he ▸ List.mem_cons_self c cs)
    rw [List.foldl_cons, if_neg (fun hb => hc (beq_iff_eq.mp hb)),
      ih (acc ++ [c]) (fun hm => h (List.mem_cons_of_mem c hm))]
    simp

theorem lastSegment_after_last_slash (u v : List Char) (hv : '/' ∉ v) :
    lastSegment (String.mk (u ++ '/' :: v)) = String.mk v := by
  show String.mk
    ((u ++ '/' :: v).foldl (fun acc c => if c == '/' then [] else acc ++ [c])
      []) = String.mk v
  rw [List.foldl_append, List.foldl_cons, if_pos (beq_iff_eq.mpr rfl),
    lastSeg_foldl_no_slash v [] hv, List.nil_append]

/-- Backup listing for the witness: an EC2 resource covering `i-1` and a
non-EC2 resource whose id would be `i-2`. -/
def exBackupRes : List ProtectedResource :=
  [⟨"EC2", "arn:aws:ec2:ap-south-1:123:instance/i-1"⟩,
   ⟨"RDS", "arn:aws:rds:ap-south-1:123:db/i-2"⟩]

/-- The report row for `i-1` under the sample backup listing. -/
def exRowC4 : Row :=
  buildRow "123" (protectedInstances exBackupRes) [] 0 noFindings
    ("i-1", "N/A")

/-- C4: a row's `BackupEnabled` is `"Yes"` iff some protected-resource entry
of resource type `"EC2"` has the row's instance id as the final path segment
of its ARN; and the extracted segment is exactly the substring after the
last `'/'`. -/
theorem backupEnabled_iff_protected (acct : String)
    (m : List (String × String)) (rs : List ProtectedResource)
    (alarms : List MetricAlarm) (l7 : Int) (f : String → List String)
    (row : Row)
    (hrow : row ∈ buildRows acct m (protectedInstances rs) alarms l7 f) :
    (row.backupEnabled = "Yes" ↔
      ∃ r ∈ rs, r.resourceType = "EC2"
        ∧ lastSegment r.resourceArn = row.instanceId)
    ∧ ∀ (u v : List Char), '/' ∉ v →
        lastSegment (String.mk (u ++ '/' :: v)) = String.mk v := by
  refine ⟨?_, fun u v hv => lastSegment_after_last_slash u v hv⟩
  obtain ⟨p, hp, rfl⟩ := mem_buildRows.mp hrow
  rw [buildRow_backupEnabled, buildRow_instanceId, yesNo_eq_yes]
  show (protectedInstances rs).elem p.1 = true ↔ _
  rw [List.elem_iff]
  exact mem_protectedInstances

/-- C4 witness: under the sample backup listing, the iff holds for the `i-1`
row, `i-1` is reported as backed up, and `i-2` (covered only by a non-EC2
resource) is not. -/
theorem backupEnabled_iff_protected_witness :
    ((exRowC4.backupEnabled = "Yes" ↔
      ∃ r ∈ exBackupRes, r.resourceType = "EC2"
        ∧ lastSegment r.resourceArn = exRowC4.instanceId)
    ∧ ∀ (u v : List Char), '/' ∉ v →
        lastSegment (String.mk (u ++ '/' :: v)) = String.mk v)
    ∧ exRowC4.backupEnabled = "Yes"
    ∧ (buildRow "123" (protectedInstances exBackupRes) [] 0 noFindings
        ("i-2", "N/A")).backupEnabled = "No" :=
  ⟨backupEnabled_iff_protected "123" [("i-1", "N/A"), ("i-2", "N/A")]
      exBackupRes [] 0 noFindings exRowC4 (List.mem_cons_self _ _),
    by decide, by decide⟩

theorem mem_insertInstance {m : List (String × String)} {iid nm : String}
    {p : String × String} (hp : p ∈ insertInstance m iid nm) :
    p ∈ m ∨ p = (iid, nm) := by
  unfold insertInstance at hp
  by_cases h : (m.any (fun q => q.1 == iid)) = true
  · rw [if_pos h] at hp
    obtain ⟨q, hq, he⟩ := List.mem_map.mp hp
    by_cases h2 : (q.1 == iid) = true
    · right
      rw [if_pos h2] at he
      rw [← he, beq_iff_eq.mp h2]
    · left
      rw [if_neg h2] at he
      rw [← he]
      exact hq
  · rw [if_neg h] at hp
    rcases List.mem_append.mp hp with h1 | h1
    · exact Or.inl h1
    · exact Or.inr (List.mem_singleton.mp h1)

theorem foldl_insert_src :
    ∀ (l2 : List EC2Instance) (m : List (String × String))
      (p : String × String),
      p ∈ l2.foldl
        (fun m i => insertInstance m i.instanceId (resolveName i.tags)) m →
      p ∈ m ∨ ∃ i ∈ l2, i.instanceId = p.1 ∧ p.2 = resolveName i.tags := by
  intro l2
  induction l2 with
  | nil => intro m p hp; exact Or.inl hp
  | cons i rest ih =>
    intro m p hp
    rw [List.foldl_cons] at hp
    rcases ih _ p hp with h1 | ⟨j, hj, hj2, hj3⟩
    · rcases mem_insertInstance h1 with h2 | h2
      · exact Or.inl h2
      · right
        exact ⟨i, List.mem_cons_self i rest, by rw [h2], by rw [h2]⟩
    · exact Or.inr ⟨j, List.mem_cons_of_mem i hj, hj2, hj3⟩

theorem buildInstances_src {l : List EC2Instance} {p : String × String}
    (hp : p ∈ buildInstances l) :
    ∃ i ∈ l, i.instanceId = p.1 ∧ p.2 = resolveName i.tags := by
  rcases foldl_insert_src l [] p hp with h | h
  · cases h
  · exact h

theorem resolveName_context (tags : List Tag) :
    ((∃ t ∈ tags, t.key = "Name") →
      ∃ t ∈ tags, t.key = "Name" ∧ resolveName tags = t.value)
    ∧ ((∀ t ∈ tags, t.key ≠ "Name") → resolveName tags = "N/A") := by
  cases hf : tags.find? (fun t => t.key == "Name") with
  | none =>
    constructor
    · rintro ⟨t, ht, hk⟩
      exact absurd (beq_iff_eq.mpr hk) (List.find?_eq_none.mp hf t ht)
    · intro _
      simp [resolveName, hf]
  | some t =>
    have hpt0 := List.find?_some hf
    have hpt : (t.key == "Name") = true := hpt0
    constructor
    · intro _
      exact ⟨t, List.mem_of_find?_eq_some hf, beq_iff_eq.mp hpt,
        by simp [resolveName, hf]⟩
    · intro h
      exact absurd (beq_iff_eq.mp hpt) (h t (List.mem_of_find?_eq_some hf))

/-- An enumerated instance with tags but no `"Name"` tag. -/
def exInstNoName : EC2Instance := ⟨"i-1", [⟨"env", "prod"⟩]⟩

/-- The report row built for `exInstNoName`. -/
def exRowC5 : Row := buildRow "123" [] [] 0 noFindings ("i-1", "N/A")

/-- C5: every row's `InstanceName` is the resolved name of an enumerated
instance with that id, where resolution yields the value of a tag whose key
is exactly `"Name"` when one exists and the sentinel `"N/A"` otherwise. -/
theorem instanceName_from_name_tag (acct : String) (l : List EC2Instance)
    (prot : List String) (alarms : List MetricAlarm) (l7 : Int)
    (f : String → List String) (row : Row)
    (hrow : row ∈ buildRows acct (buildInstances l) prot alarms l7 f) :
    (∃ i ∈ l, i.instanceId = row.instanceId
      ∧ row.instanceName = resolveName i.tags)
    ∧ ∀ tags : List Tag,
        ((∃ t ∈ tags, t.key = "Name") →
          ∃ t ∈ tags, t.key = "Name" ∧ resolveName tags = t.value)
        ∧ ((∀ t ∈ tags, t.key ≠ "Name") → resolveName tags = "N/A") := by
  refine ⟨?_, fun tags => resolveName_context tags⟩
  obtain ⟨p, hp, rfl⟩ := mem_buildRows.mp hrow
  rw [buildRow_instanceId, buildRow_instanceName]
  exact buildInstances_src hp

/-- C5 witness: an instance with tags but no `"Name"` tag gets sentinel
`"N/A"`, and a `"Name"` tag resolves to its value. -/
theorem instanceName_from_name_tag_witness :
    ((∃ i ∈ [exInstNoName], i.instanceId = exRowC5.instanceId
      ∧ exRowC5.instanceName = resolveName i.tags)
    ∧ ∀ tags : List Tag,
        ((∃ t ∈ tags, t.key = "Name") →
          ∃ t ∈ tags, t.key = "Name" ∧ resolveName tags = t.value)
        ∧ ((∀ t ∈ tags, t.key ≠ "Name") → resolveName tags = "N/A"))
    ∧ exRowC5.instanceName = "N/A"
    ∧ resolveName [⟨"Name", "web-1"⟩] = "web-1" :=
  ⟨instanceName_from_name_tag "123" [exInstNoName] [] [] 0 noFindings exRowC5
      (List.mem_singleton.mpr rfl),
    by decide, by decide⟩

/-- The provider responses of a run that enumerates no instance. -/
def exEmptyEnv : ApiEnv := ⟨"123", [], [], [], noFindings⟩

/-- C6: a run that enumerates zero instances aborts with the fatal
"no instances" error and yields no rows; any run that does produce rows
produces the full report over every enumerated instance. -/
theorem zero_instances_abort (now : Int) (env : ApiEnv) :
    (env.ec2Instances = [] →
      runReport now env
        = Except.error "No EC2 instances found. Check region or AWS profile.")
    ∧ ∀ rows, runReport now env = Except.ok rows →
        rows = buildRows env.accountId (buildInstances env.ec2Instances)
          (protectedInstances env.backupResources) env.metricAlarms
          (now - 7 * secondsPerDay) env.findingsFor := by
  constructor
  · intro h
    simp [runReport, h, buildInstances]
  · intro rows h
    simp only [runReport] at h
    split at h
    · exact Except.noConfusion h
    · injection h with h2
      exact h2.symm

/-- C6 witness: with an empty enumeration the run returns the fatal error. -/
theorem zero_instances_abort_witness :
    runReport 0 exEmptyEnv
      = Except.error "No EC2 instances found. Check region or AWS profile." :=
  (zero_instances_abort 0 exEmptyEnv).1 rfl

theorem keys_insertInstance (m : List (String × String)) (iid nm : String) :
    (insertInstance m iid nm).map Prod.fst
      = if (m.any (fun q => q.1 == iid)) = true then m.map Prod.fst
        else m.map Prod.fst ++ [iid] := by
  unfold insertInstance
  by_cases h : (m.any (fun q => q.1 == iid)) = true
  · rw [if_pos h, if_pos h, List.map_map]
    apply List.map_congr_left
    intro p _
    by_cases h2 : (p.1 == iid) = true
    · show ((if p.1 == iid then (p.1, nm) else p)).1 = p.1
      rw [if_pos h2]
    · show ((if p.1 == iid then (p.1, nm) else p)).1 = p.1
      rw [if_neg h2]
  · rw [if_neg h, if_neg h, List.map_append]
    rfl

theorem nodup_keys_foldl :
    ∀ (l : List EC2Instance) (m : List (String × String)),
      (m.map Prod.fst).Nodup →
      ((l.foldl
          (fun m i => insertInstance m i.instanceId (resolveName i.tags))
          m).map Prod.fst).Nodup := by
  intro l
  induction l with
  | nil => intro m h; exact h
  | cons i rest ih =>
    intro m h
    rw [List.foldl_cons]
    apply ih
    rw [keys_insertInstance]
    by_cases hc : (m.any (fun q => q.1 == i.instanceId)) = true
    · rw [if_pos hc]
      exact h
    · rw [if_neg hc, List.nodup_append]
      refine ⟨h, List.nodup_singleton _, ?_⟩
      intro x hx hx2
      rw [List.mem_singleton] at hx2
      subst hx2
      obtain ⟨q, hq, hq2⟩ := List.mem_map.mp hx
      apply hc
      rw [List.any_eq_true]
      exact ⟨q, hq, beq_iff_eq.mpr hq2⟩

theorem nodup_keys_buildInstances (l : List EC2Instance) :
    ((buildInstances l).map Prod.fst).Nodup :=
  nodup_keys_foldl l [] (by simp)

theorem buildRows_ids (acct : String) (m : List (String × String))
    (prot : List String) (alarms : List MetricAlarm) (l7 : Int)
    (f : String → List String) :
    (buildRows acct m prot alarms l7 f).map Row.instanceId
      = m.map Prod.fst := by
  rw [buildRows, List.map_map]
  apply List.map_congr_left
  intro p _
  rfl

/-- The report row of a fully-uncovered instance, used by the C7 witness:
no backup entry, no attributed alarm, no finding. -/
def exRowC7 : Row :=
  buildRow "123" ["i-7"] [exAlarmCombo] 0 noFindings ("i-1", "N/A")

/-- C7: the report has exactly one row per enumerated instance (same ids,
same insertion order, with pairwise distinct ids), and an instance with no
backup entry, no attributed alarm and no finding gets the explicit defaults:
all flag columns `"No"` and zero CVE counts. -/
theorem report_rows_complete_and_defaulted (acct : String)
    (l : List EC2Instance) (prot : List String) (alarms : List MetricAlarm)
    (l7 : Int) (f : String → List String) :
    (buildRows acct (buildInstances l) prot alarms l7 f).map Row.instanceId
      = (buildInstances l).map Prod.fst
    ∧ ((buildInstances l).map Prod.fst).Nodup
    ∧ ∀ row ∈ buildRows acct (buildInstances l) prot alarms l7 f,
        row.instanceId ∉ prot →
        (∀ a ∈ alarms, alarmInstanceId a ≠ some row.instanceId) →
        f row.instanceId = [] →
        row.backupEnabled = "No" ∧ row.monitoringEnabled = "No"
        ∧ row.stateAlarm = "No" ∧ row.cpuAlarm = "No"
        ∧ row.memoryAlarm = "No" ∧ row.diskAlarm = "No"
        ∧ row.monitoringAlertLastWeek = "No"
        ∧ row.cveCritical = 0 ∧ row.cveHigh = 0 ∧ row.cveAll = 0 := by
  refine ⟨buildRows_ids acct (buildInstances l) prot alarms l7 f,
    nodup_keys_buildInstances l, ?_⟩
  intro row hrow hb ha hf
  obtain ⟨p, hp, rfl⟩ := mem_buildRows.mp hrow
  rw [buildRow_instanceId] at hb ha hf
  have hmap : alarmMap alarms p.1 = [] := by
    rw [alarmMap, List.filter_eq_nil_iff.mpr
      (fun a haa hba => ha a haa (beq_iff_eq.mp hba))]
    rfl
  have htrig : alarmTriggeredLastWeek alarms l7 p.1 = false := by
    rw [alarmTriggeredLastWeek, List.any_eq_false]
    intro a haa hcond
    simp only [Bool.and_eq_true, beq_iff_eq, decide_eq_true_eq] at hcond
    exact ha a haa hcond.1.1
  have hcontains : prot.contains p.1 = false := by
    cases hcc : prot.contains p.1
    · rfl
    · exact absurd (List.elem_iff.mp hcc) hb
  refine ⟨?_, ?_, ?_, ?_, ?_, ?_, ?_, ?_, ?_, ?_⟩
  · rw [buildRow_backupEnabled, hcontains]
    rfl
  · rw [buildRow_monitoringEnabled, hmap]
    rfl
  · rw [buildRow_stateAlarm, hmap]
    rfl
  · rw [buildRow_cpuAlarm, hmap]
    rfl
  · rw [buildRow_memoryAlarm, hmap]
    rfl
  · rw [buildRow_diskAlarm, hmap]
    rfl
  · rw [buildRow_alertLastWeek, htrig]
    rfl
  · rw [buildRow_cveCritical, hf]
    rfl
  · rw [buildRow_cveHigh, hf]
    rfl
  · rw [buildRow_cveAll, hf]
    rfl

/-- C7 witness: for an instance with no backup entry, no attributed alarm
and no finding, every flag defaults to `"No"` and every count to zero, and
the row ids equal the enumerated ids. -/
theorem report_rows_complete_and_defaulted_witness :
    (exRowC7.backupEnabled = "No" ∧ exRowC7.monitoringEnabled = "No"
    ∧ exRowC7.stateAlarm = "No" ∧ exRowC7.cpuAlarm = "No"
    ∧ exRowC7.memoryAlarm = "No" ∧ exRowC7.diskAlarm = "No"
    ∧ exRowC7.monitoringAlertLastWeek = "No"
    ∧ exRowC7.cveCritical = 0 ∧ exRowC7.cveHigh = 0 ∧ exRowC7.cveAll = 0)
    ∧ (buildRows "123" (buildInstances [exInstNoName]) ["i-7"] [exAlarmCombo]
        0 noFindings).map Row.instanceId
      = (buildInstances [exInstNoName]).map Prod.fst :=
  ⟨(report_rows_complete_and_defaulted "123" [exInstNoName] ["i-7"]
        [exAlarmCombo] 0 noFindings).2.2 exRowC7
      (List.mem_singleton.mpr rfl) (by decide) (by decide) rfl,
    (report_rows_complete_and_defaulted "123" [exInstNoName] ["i-7"]
        [exAlarmCombo] 0 noFindings).1⟩

theorem extract_none_of_no_dim :
    ∀ (dims : List Dimension) (acc : Option String),
      (∀ d ∈ dims, d.name ≠ "InstanceId") →
      dims.foldl
        (fun acc d => if d.name == "InstanceId" then some d.value else acc)
        acc = acc := by
  intro dims
  induction dims with
  | nil => intro acc _; rfl
  | cons d ds ih =>
    intro acc h
    rw [List.foldl_cons,
      if_neg (fun hb => h d (List.mem_cons_self d ds) (beq_iff_eq.mp hb)),
      ih acc (fun x hx => h x (List.mem_cons_of_mem d hx))]

theorem alarmInstanceId_none {a : MetricAlarm}
    (h : ∀ d ∈ a.dimensions, d.name ≠ "InstanceId") :
    alarmInstanceId a = none := by
  have he : extractInstanceId a.dimensions = none :=
    extract_none_of_no_dim a.dimensions none h
  simp [alarmInstanceId, he]

theorem alarmMap_skip {pre post : List MetricAlarm} {a : MetricAlarm}
    (h : alarmInstanceId a = none) (iid : String) :
    alarmMap (pre ++ a :: post) iid = alarmMap (pre ++ post) iid := by
  have hfalse : (alarmInstanceId a == some iid) = false := by
    rw [h]
    rfl
  rw [alarmMap, alarmMap, List.filter_append, List.filter_append,
    List.filter_cons, hfalse]
  rfl

theorem triggered_skip {pre post : List MetricAlarm} {a : MetricAlarm}
    (h : alarmInstanceId a = none) (l7 : Int) (iid : String) :
    alarmTriggeredLastWeek (pre ++ a :: post) l7 iid
      = alarmTriggeredLastWeek (pre ++ post) l7 iid := by
  have hfalse : (alarmInstanceId a == some iid && a.stateValue == "ALARM"
      && decide (l7 ≤ a.stateUpdatedTimestamp)) = false := by
    rw [h]
    rfl
  rw [alarmTriggeredLastWeek, alarmTriggeredLastWeek, List.any_append,
    List.any_append, List.any_cons, hfalse, Bool.false_or]

/-- An alarm with no `InstanceId` dimension at all. -/
def exAlarmOrphan : MetricAlarm :=
  ⟨"orphan-alarm", [⟨"QueueName", "q1"⟩], "ALARM", 0⟩

/-- C8: an alarm whose dimension list has no dimension named `"InstanceId"`
is invisible to the report: deleting it from the alarm listing leaves every
row of the report unchanged. -/
theorem alarm_without_instanceid_invisible (acct : String)
    (m : List (String × String)) (prot : List String)
    (pre post : List MetricAlarm) (a : MetricAlarm) (l7 : Int)
    (f : String → List String)
    (h : ∀ d ∈ a.dimensions, d.name ≠ "InstanceId") :
    buildRows acct m prot (pre ++ a :: post) l7 f
      = buildRows acct m prot (pre ++ post) l7 f := by
  have hn : alarmInstanceId a = none := alarmInstanceId_none h
  rw [buildRows, buildRows]
  apply List.map_congr_left
  intro p _
  simp only [buildRow, alarmMap_skip hn, triggered_skip hn]

/-- C8 witness: dropping a dimensionless alarm from a concrete listing
leaves the report rows identical. -/
theorem alarm_without_instanceid_invisible_witness :
    buildRows "123" [("i-9", "N/A")] [] [exAlarmOrphan, exAlarmCombo] 0
        noFindings
      = buildRows "123" [("i-9", "N/A")] [] [exAlarmCombo] 0 noFindings :=
  alarm_without_instanceid_invisible "123" [("i-9", "N/A")] [] []
    [exAlarmCombo] exAlarmOrphan 0 noFindings (by decide)

theorem extract_eq_last_filtered (dims : List Dimension) :
    ∀ acc : Option String,
      dims.foldl
        (fun acc d => if d.name == "InstanceId" then some d.value else acc)
        acc
      = match (dims.filter (fun d => d.name == "InstanceId")).getLast? with
        | some d => some d.value
        | none => acc := by
  induction dims using List.reverseRecOn with
  | nil => intro acc; rfl
  | append_singleton l d ih =>
    intro acc
    rw [List.foldl_append, List.foldl_cons, List.foldl_nil,
      List.filter_append]
    by_cases h : (d.name == "InstanceId") = true
    · have hf : List.filter (fun d => d.name == "InstanceId") [d] = [d] := by
        rw [List.filter_cons, if_pos h]
        rfl
      rw [if_pos h, hf, List.getLast?_concat]
    · have hf : List.filter (fun d => d.name == "InstanceId") [d] = [] := by
        rw [List.filter_cons, if_neg h]
        rfl
      rw [if_neg h, hf, List.append_nil]
      exact ih acc

/-- An alarm with two `InstanceId` dimensions: an earlier non-empty value
and a later empty one. -/
def exAlarmDoubleDim : MetricAlarm :=
  ⟨"cpu-high", [⟨"InstanceId", "i-1"⟩, ⟨"InstanceId", ""⟩], "ALARM", 0⟩

/-- C9: the extracted instance id is the value of the last `"InstanceId"`
dimension in list order, and when that finally-selected value is the empty
string the alarm is dropped from the report exactly as if it had no
`"InstanceId"` dimension. -/
theorem last_instanceid_dimension_wins (acct : String)
    (m : List (String × String)) (prot : List String)
    (pre post : List MetricAlarm) (a : MetricAlarm) (l7 : Int)
    (f : String → List String) :
    (∀ dims : List Dimension,
      extractInstanceId dims
        = Option.map Dimension.value
            ((dims.filter (fun d => d.name == "InstanceId")).getLast?))
    ∧ (extractInstanceId a.dimensions = some "" →
        buildRows acct m prot (pre ++ a :: post) l7 f
          = buildRows acct m prot (pre ++ post) l7 f) := by
  constructor
  · intro dims
    rw [extractInstanceId, extract_eq_last_filtered dims none]
    cases (dims.filter (fun d => d.name == "InstanceId")).getLast? <;> rfl
  · intro hemp
    have hn : alarmInstanceId a = none := by
      simp [alarmInstanceId, hemp]
    rw [buildRows, buildRows]
    apply List.map_congr_left
    intro p _
    simp only [buildRow, alarmMap_skip hn, triggered_skip hn]

/-- C9 witness: for an alarm whose dimensions are `InstanceId = "i-1"` then
`InstanceId = ""`, the selected value is the last one (the empty string) and
the alarm is skipped, despite the earlier non-empty value. -/
theorem last_instanceid_dimension_wins_witness :
    extractInstanceId exAlarmDoubleDim.dimensions = some ""
    ∧ buildRows "123" [("i-1", "N/A")] [] [exAlarmDoubleDim] 0 noFindings
        = buildRows "123" [("i-1", "N/A")] [] [] 0 noFindings
    ∧ extractInstanceId [⟨"InstanceId", "i-1"⟩, ⟨"InstanceId", "i-2"⟩]
        = Option.map Dimension.value
            (([⟨"InstanceId", "i-1"⟩, ⟨"InstanceId", "i-2"⟩]
              : List Dimension).filter
                (fun d => d.name == "InstanceId")).getLast? :=
  ⟨by decide,
    (last_instanceid_dimension_wins "123" [("i-1", "N/A")] [] [] []
        exAlarmDoubleDim 0 noFindings).2 (by decide),
    (last_instanceid_dimension_wins "123" [("i-1", "N/A")] [] [] []
        exAlarmDoubleDim 0 noFindings).1
      [⟨"InstanceId", "i-1"⟩, ⟨"InstanceId", "i-2"⟩]⟩

/-- A non-trivial run environment for the determinism witness. -/
def exFullEnv : ApiEnv :=
  ⟨"123", [exInstNoName], exBackupRes, [exAlarmCombo], noFindings⟩

/-- C10: the report is deterministic: two runs given identical provider
responses and the same run-start clock produce identical results — every
row, every field, and the row order. -/
theorem report_deterministic (now1 now2 : Int) (e1 e2 : ApiEnv)
    (hn : now1 = now2) (he : e1 = e2) :
    runReport now1 e1 = runReport now2 e2 := by
  rw [hn, he]

/-- C10 witness: the determinism theorem applied at a concrete clock and
environment. -/
theorem report_deterministic_witness :
    runReport 0 exFullEnv = runReport 0 exFullEnv :=
  report_deterministic 0 0 exFullEnv exFullEnv rfl rfl

end AWSReport
